import Mathlib

/-!
Movie recommendation gateway: controller, downstream client, error handler.

A shallow embedding of the decision logic of the Express backend

* `src/backend/src/controllers/movieController.js`
* `src/backend/src/services/mlService.js`
* `src/backend/src/utils/errorHandler.js`

JavaScript values are embedded as the inductive type `JsVal`.  The operators
the three files use (`!x`, `a || b`, `x.p`, `x.trim()`, `s.length`,
object literals with a spread) are embedded once, and every handler is then
translated statement by statement.

Model boundaries, stated once:

* numbers are integers (status codes and timeouts are; non-integer JSON
  numbers are only ever forwarded by this program);
* strings are sequences of Unicode scalar values; `length` counts UTF-16
  code units, as JavaScript does;
* `console.error` calls have no effect on the response; only the evaluation
  of their arguments is kept, because it can throw;
* `await` is sequencing: a rejected promise is a thrown value;
* `res.status(x).json(b)` sends when `x` is an integer from 100 to 999 and
  raises otherwise, as Express and Node do for an invalid status code.
-/

namespace MovieRecommender

/-! ## JavaScript values -/

/-- JavaScript values that can reach this program: query-string values,
parsed JSON bodies, error objects and the object literals the code builds.
An object is the list of its properties.  The only objects this program
enumerates (by a spread) are parsed JSON bodies, whose properties are all own
and enumerable. -/
inductive JsVal where
  | undefined : JsVal
  | null : JsVal
  | bool (b : Bool) : JsVal
  | num (n : Int) : JsVal
  | str (s : String) : JsVal
  | arr (items : List JsVal) : JsVal
  | obj (fields : List (String × JsVal)) : JsVal

/-- What a `throw` (or a rejected promise) carries: a `TypeError` raised by
the language itself, the error the HTTP layer raises for an invalid status
code, or an arbitrary value raised by a collaborator. -/
inductive Thrown where
  | typeError : Thrown
  | invalidStatus : Thrown
  | value (v : JsVal) : Thrown

/-- Result of evaluating an expression that may throw. -/
abbrev Js (α : Type) := Except Thrown α

/-- ToBoolean: `undefined`, `null`, `false`, `0` and `''` are falsy, every
other value (all arrays and objects included) is truthy. -/
def truthy : JsVal → Bool
  | .undefined => false
  | .null => false
  | .bool b => b
  | .num n => n != 0
  | .str s => s != ""
  | .arr _ => true
  | .obj _ => true

/-- The operator `a || b` on already evaluated operands whose right operand
is a constant or a pure expression: the left operand when truthy, else the
right one. -/
def jsOr (a b : JsVal) : JsVal :=
  if truthy a then a else b

/-- First property with key `k` in a property list. -/
def lookupField (k : String) : List (String × JsVal) → Option JsVal
  | [] => none
  | (k', v) :: rest => if k' = k then some v else lookupField k rest

/-- Property read `x.k` for the property names this program reads
(`title`, `query`, `success`, `status`, `error`, `data`, `message`,
`response`, `request`, `statusCode`, `stack`): a `TypeError` on `undefined`
and `null`, the own property of an object or `undefined` when it has none,
and `undefined` on booleans, numbers, strings and arrays, none of which has
a property of these names. -/
def getProp (x : JsVal) (k : String) : Js JsVal :=
  match x with
  | .undefined => .error .typeError
  | .null => .error .typeError
  | .obj fields => .ok ((lookupField k fields).getD .undefined)
  | _ => .ok .undefined

/-- The characters `String.prototype.trim` strips: ECMAScript WhiteSpace
(TAB, VT, FF, SP, NBSP, ZWNBSP and the Unicode space separators) and
LineTerminator (LF, CR, LS, PS). -/
def isJsWhitespace (c : Char) : Bool :=
  let n := c.toNat
  n == 0x09 || n == 0x0A || n == 0x0B || n == 0x0C || n == 0x0D || n == 0x20 ||
  n == 0xA0 || n == 0x1680 || (0x2000 ≤ n && n ≤ 0x200A) || n == 0x2028 ||
  n == 0x2029 || n == 0x202F || n == 0x205F || n == 0x3000 || n == 0xFEFF

/-- Strip leading and trailing whitespace from a character list. -/
def trimChars (cs : List Char) : List Char :=
  ((cs.dropWhile isJsWhitespace).reverse.dropWhile isJsWhitespace).reverse

/-- The method `String.prototype.trim` on a string. -/
def jsTrim (s : String) : String :=
  String.mk (trimChars s.data)

/-- The property `length` of a string: its number of UTF-16 code units
(two for a character outside the Basic Multilingual Plane). -/
def jsLength (s : String) : Nat :=
  (s.data.map (fun c => if c.toNat < 0x10000 then 1 else 2)).sum

/-- The method call `x.trim()`: defined on strings; on every other value the
property `trim` is `undefined` or not callable (query-string and JSON values
are never functions) and the call raises a `TypeError`. -/
def callTrim (x : JsVal) : Js String :=
  match x with
  | .str s => .ok (jsTrim s)
  | _ => .error .typeError

/-- Assignment `o[k] = v` on a property list: overwrite the property when it
exists, append it otherwise. -/
def setField (k : String) (v : JsVal) : List (String × JsVal) → List (String × JsVal)
  | [] => [(k, v)]
  | (k', v') :: rest => if k' = k then (k, v) :: rest else (k', v') :: setField k v rest

/-- Index-keyed properties of an array or string, starting at index `i`. -/
def indexed (i : Nat) : List JsVal → List (String × JsVal)
  | [] => []
  | v :: rest => (toString i, v) :: indexed (i + 1) rest

/-- Own enumerable properties copied by a spread `...x` inside an object
literal: those of an object, the index-keyed elements of an array or the
characters of a string, and nothing for `undefined`, `null`, booleans and
numbers.  (A string is split per character; JavaScript splits per UTF-16
code unit, which is the same for every BMP string.) -/
def ownEnumerable : JsVal → List (String × JsVal)
  | .obj fields => fields
  | .arr items => indexed 0 items
  | .str s => indexed 0 (s.data.map (fun c => JsVal.str (String.singleton c)))
  | _ => []

/-- Object literal `{ ...base, ...x }` where `base` are the properties written
before the spread: each property of `x`, in order, is assigned onto the
object under construction. -/
def objectSpread (base : List (String × JsVal)) (x : JsVal) : JsVal :=
  .obj ((ownEnumerable x).foldl (fun acc kv => setField kv.1 kv.2 acc) base)

/-- Whether a value is `undefined`. -/
def isUndefined : JsVal → Bool
  | .undefined => true
  | _ => false

/-- Properties that `res.json` (JSON.stringify) writes for an object body:
a property whose value is `undefined` is omitted from the JSON text. -/
def jsonFields : JsVal → List (String × JsVal)
  | .obj fields => fields.filter (fun kv => !isUndefined kv.2)
  | _ => []

/-! ## HTTP response and the downstream client interface -/

/-- What a handler sends: the argument of `res.status` and the argument of
`res.json`. -/
structure Response where
  status : JsVal
  body : JsVal

/-- The status codes the HTTP layer accepts: integers from 100 to 999. -/
def validStatus : JsVal → Bool
  | .num n => decide (100 ≤ n) && decide (n ≤ 999)
  | _ => false

/-- The chained call `res.status(status).json(body)`: the response is sent
when the status is an integer from 100 to 999; for any other status the call
raises (Express and Node reject the status code) and nothing is sent. -/
def send (status body : JsVal) : Js Response :=
  if validStatus status then .ok ⟨status, body⟩ else .error .invalidStatus

/-- A call made on the downstream client object `mlService`. -/
inductive Call where
  | getRecommendations (movieTitle : JsVal) : Call
  | searchMovies (query : JsVal) : Call
  | checkHealth : Call

/-- The client object the controller imports: three methods that return a
result value or throw.  The controller is parameterised over it, so a test
double and the real `MLService` are both instances. -/
structure MLServiceLike where
  getRecommendations : JsVal → Js JsVal
  searchMovies : JsVal → Js JsVal
  checkHealth : Js JsVal

/-- An Express request as far as the handlers read it: the parsed query
string `req.query`, an object. -/
structure Request where
  query : List (String × JsVal)

/-- A finished handler run: the calls made on the client, in order, and the
response sent. -/
structure Run where
  calls : List Call
  response : Response

/-! ## The downstream client: `services/mlService.js` -/

/-- The response object a resolved `axios.get` yields; the client reads only
its `data`. -/
structure AxiosResponse where
  data : JsVal

/-- The library call `axios.get(url, config)` as the client sees it: it
resolves with a response object or rejects with a value, which the client
inspects through its `response`, `request` and `message` properties. -/
abbrev AxiosGet := String → JsVal → Except JsVal AxiosResponse

/-- The module constant `process.env.ML_SERVICE_URL || 'http://localhost:5000'`;
an environment variable is a string or is not set. -/
def ML_SERVICE_URL (envValue : Option String) : String :=
  match envValue with
  | some s => if s = "" then "http://localhost:5000" else s
  | none => "http://localhost:5000"

namespace MLService

/-- The `catch (error)` block of `getRecommendations` (mlService.js 26-52):
the argument of `console.error` is evaluated, then the error is classified by
`error.response`, else `error.request`, else neither. -/
def getRecommendationsCatch (error : JsVal) : Js JsVal := do
  let _logged ← getProp error "message"
  let response ← getProp error "response"
  if truthy response then
    let data ← getProp response "data"
    let bodyError ← getProp data "error"
    let status ← getProp response "status"
    pure (.obj [("success", .bool false),
                ("error", jsOr bodyError (.str "Failed to get recommendations")),
                ("status", status)])
  else
    let request ← getProp error "request"
    if truthy request then
      pure (.obj [("success", .bool false),
                  ("error", .str "ML service is not responding. Please ensure Flask server is running."),
                  ("status", .num 503)])
    else
      let message ← getProp error "message"
      pure (.obj [("success", .bool false), ("error", message), ("status", .num 500)])

/-- Method `getRecommendations(movieTitle)` (mlService.js 15-53). -/
def getRecommendations (axiosGet : AxiosGet) (baseUrl : String) (movieTitle : JsVal) : Js JsVal :=
  match axiosGet (baseUrl ++ "/api/recommend")
      (.obj [("params", .obj [("title", movieTitle)]), ("timeout", .num 10000)]) with
  | .ok response => .ok (.obj [("success", .bool true), ("data", response.data)])
  | .error error => getRecommendationsCatch error

/-- The `catch (error)` block of `searchMovies` (mlService.js 69-85): two
branches only, `error.response` or anything else. -/
def searchMoviesCatch (error : JsVal) : Js JsVal := do
  let _logged ← getProp error "message"
  let response ← getProp error "response"
  if truthy response then
    let data ← getProp response "data"
    let bodyError ← getProp data "error"
    let status ← getProp response "status"
    pure (.obj [("success", .bool false),
                ("error", jsOr bodyError (.str "Search failed")),
                ("status", status)])
  else
    pure (.obj [("success", .bool false),
                ("error", .str "ML service is not responding"),
                ("status", .num 503)])

/-- Method `searchMovies(query)` (mlService.js 58-86). -/
def searchMovies (axiosGet : AxiosGet) (baseUrl : String) (query : JsVal) : Js JsVal :=
  match axiosGet (baseUrl ++ "/api/search")
      (.obj [("params", .obj [("query", query)]), ("timeout", .num 5000)]) with
  | .ok response => .ok (.obj [("success", .bool true), ("data", response.data)])
  | .error error => searchMoviesCatch error

/-- Method `checkHealth()` (mlService.js 91-107): the caught error is never
read. -/
def checkHealth (axiosGet : AxiosGet) (baseUrl : String) : Js JsVal :=
  match axiosGet (baseUrl ++ "/api/health") (.obj [("timeout", .num 3000)]) with
  | .ok response => .ok (.obj [("success", .bool true), ("data", response.data)])
  | .error _ => .ok (.obj [("success", .bool false), ("error", .str "ML service is down")])

end MLService

/-- The exported singleton `new MLService()` over a given `axios.get` and
base URL. -/
def mlService (axiosGet : AxiosGet) (baseUrl : String) : MLServiceLike where
  getRecommendations := MLService.getRecommendations axiosGet baseUrl
  searchMovies := MLService.searchMovies axiosGet baseUrl
  checkHealth := MLService.checkHealth axiosGet baseUrl

/-! ## The request handlers: `controllers/movieController.js` -/

namespace MovieController

/-- The `try` block of `getRecommendations` (movieController.js 14-40): the
client calls made and either the response sent or the exception raised. -/
def getRecommendationsTry (ml : MLServiceLike) (req : Request) : List Call × Js Response :=
  let title := (lookupField "title" req.query).getD .undefined
  if !truthy title then
    ([], send (.num 400) (.obj [("success", .bool false), ("error", .str "Please provide a movie title")]))
  else
    match callTrim title with
    | .error e => ([], .error e)
    | .ok trimmed =>
      if trimmed = "" then
        ([], send (.num 400) (.obj [("success", .bool false), ("error", .str "Please provide a movie title")]))
      else
        ([Call.getRecommendations title], do
          let result ← ml.getRecommendations title
          let success ← getProp result "success"
          if !truthy success then
            let status ← getProp result "status"
            let error ← getProp result "error"
            send (jsOr status (.num 500)) (.obj [("success", .bool false), ("error", error)])
          else
            let data ← getProp result "data"
            send (.num 200) (objectSpread [("success", .bool true)] data))

/-- Handler `getRecommendations(req, res)` (movieController.js 13-48): the
`try` block, and the `catch` that answers 500 for anything thrown.  The
status 500 of the `catch` is a valid one, so that send goes through. -/
def getRecommendations (ml : MLServiceLike) (req : Request) : Run :=
  match getRecommendationsTry ml req with
  | (calls, .ok response) => ⟨calls, response⟩
  | (calls, .error _) =>
    ⟨calls, ⟨.num 500, .obj [("success", .bool false), ("error", .str "Internal server error")]⟩⟩

/-- The `try` block of `searchMovies` (movieController.js 54-76). -/
def searchMoviesTry (ml : MLServiceLike) (req : Request) : List Call × Js Response :=
  let query := (lookupField "query" req.query).getD .undefined
  if !truthy query then
    ([], send (.num 400)
      (.obj [("success", .bool false), ("error", .str "Search query must be at least 2 characters")]))
  else
    match callTrim query with
    | .error e => ([], .error e)
    | .ok trimmed =>
      if jsLength trimmed < 2 then
        ([], send (.num 400)
          (.obj [("success", .bool false), ("error", .str "Search query must be at least 2 characters")]))
      else
        ([Call.searchMovies query], do
          let result ← ml.searchMovies query
          let success ← getProp result "success"
          if !truthy success then
            let status ← getProp result "status"
            let error ← getProp result "error"
            send (jsOr status (.num 500)) (.obj [("success", .bool false), ("error", error)])
          else
            let data ← getProp result "data"
            send (.num 200) (objectSpread [("success", .bool true)] data))

/-- Handler `searchMovies(req, res)` (movieController.js 53-85). -/
def searchMovies (ml : MLServiceLike) (req : Request) : Run :=
  match searchMoviesTry ml req with
  | (calls, .ok response) => ⟨calls, response⟩
  | (calls, .error _) =>
    ⟨calls, ⟨.num 500, .obj [("success", .bool false), ("error", .str "Internal server error")]⟩⟩

/-- The `try` block of `healthCheck` (movieController.js 91-99). -/
def healthCheckTry (ml : MLServiceLike) : List Call × Js Response :=
  ([Call.checkHealth], do
    let mlHealth ← ml.checkHealth
    let success ← getProp mlHealth "success"
    let data ← getProp mlHealth "data"
    send (.num 200) (.obj [("success", .bool true),
                           ("backend", .str "healthy"),
                           ("mlService", if truthy success then .str "healthy" else .str "down"),
                           ("mlServiceDetails", jsOr data .null)]))

/-- Handler `healthCheck(req, res)` (movieController.js 90-108): its `catch`
sends its own body, not the one of the other two handlers. -/
def healthCheck (ml : MLServiceLike) : Run :=
  match healthCheckTry ml with
  | (calls, .ok response) => ⟨calls, response⟩
  | (calls, .error _) =>
    ⟨calls, ⟨.num 500, .obj [("success", .bool false),
                              ("backend", .str "error"),
                              ("mlService", .str "unknown")]⟩⟩

end MovieController

/-! ## The process-wide error handler: `utils/errorHandler.js` -/

/-- Middleware `errorHandler(err, req, res, next)` (errorHandler.js 5-17).
The parameter `nodeEnv` is `process.env.NODE_ENV`; `req` is read only for the
log line and `next` is not used.  The object passed to `res.json` always has
the key `stack`; its value is `undefined` outside development.  Nothing here
catches: when the status is not a valid one the handler itself throws. -/
def errorHandler (nodeEnv : Option String) (err : JsVal) : Js Response := do
  let statusCode := jsOr (← getProp err "statusCode") (.num 500)
  let message := jsOr (← getProp err "message") (.str "Internal Server Error")
  let stack ← if nodeEnv = some "development" then getProp err "stack" else pure .undefined
  send statusCode (.obj [("success", .bool false),
                         ("status", statusCode),
                         ("message", message),
                         ("stack", stack)])


/-! ## Named responses, client doubles and sample inputs -/

/-- The 400 answer of the recommend handler. -/
def missingTitleResponse : Response :=
  ⟨.num 400, .obj [("success", .bool false), ("error", .str "Please provide a movie title")]⟩

/-- The 400 answer of the search handler. -/
def shortQueryResponse : Response :=
  ⟨.num 400,
    .obj [("success", .bool false), ("error", .str "Search query must be at least 2 characters")]⟩

/-- The generic error envelope with status 500. -/
def internalErrorResponse : Response :=
  ⟨.num 500, .obj [("success", .bool false), ("error", .str "Internal server error")]⟩

/-- The 500 answer that the `catch` of the health handler sends. -/
def healthFaultResponse : Response :=
  ⟨.num 500, .obj [("success", .bool false), ("backend", .str "error"), ("mlService", .str "unknown")]⟩

/-- The 200 body of the health handler for a given `mlService` text and
`mlServiceDetails` value. -/
def healthBody (mlStatus details : JsVal) : JsVal :=
  .obj [("success", .bool true), ("backend", .str "healthy"),
        ("mlService", mlStatus), ("mlServiceDetails", details)]

/-- An error envelope `success: false, error: message`. -/
def errorEnvelope (message : JsVal) : JsVal :=
  .obj [("success", .bool false), ("error", message)]

/-- The value the real client returns on success: `success: true, data: payload`. -/
def okResult (payload : JsVal) : JsVal :=
  .obj [("success", .bool true), ("data", payload)]

/-- A title is valid for the recommend handler when something is left
after trimming. -/
abbrev validTitle (t : String) : Prop := jsTrim t ≠ ""

/-- A query is valid for the search handler when at least two UTF-16 code
units are left after trimming. -/
abbrev validQuery (q : String) : Prop := 2 ≤ jsLength (jsTrim q)

/-- A client double whose every method throws. -/
def throwingClient : MLServiceLike where
  getRecommendations := fun _ => .error (.value (.str "boom"))
  searchMovies := fun _ => .error (.value (.str "boom"))
  checkHealth := .error (.value (.str "boom"))

/-- A client double whose every method returns `okResult payload`. -/
def okClient (payload : JsVal) : MLServiceLike where
  getRecommendations := fun _ => .ok (okResult payload)
  searchMovies := fun _ => .ok (okResult payload)
  checkHealth := .ok (okResult payload)

/-- An `axios.get` double that rejects every call with `error`. -/
def rejectingAxios (error : JsVal) : AxiosGet := fun _ _ => .error error

/-- An `axios.get` double that resolves every call with body `data`. -/
def resolvingAxios (data : JsVal) : AxiosGet := fun _ _ => .ok ⟨data⟩

/-- The error axios raises for a downstream answer with status `status` and
parsed body `data`. -/
def responseError (status : Int) (data : JsVal) : JsVal :=
  .obj [("message", .str "Request failed"),
        ("request", .obj []),
        ("response", .obj [("status", .num status), ("data", data)])]

/-- The error axios raises when the request was sent and no answer came. -/
def noResponseError : JsVal :=
  .obj [("message", .str "timeout of 10000ms exceeded"), ("request", .obj [])]

/-- The error axios raises when the search request, with its timeout of 5
seconds, got no answer. -/
def searchTimeoutError : JsVal :=
  .obj [("message", .str "timeout of 5000ms exceeded"), ("request", .obj [])]

/-- An `axios.get` double for a downstream at `http://localhost:5000` that
never answers: every call times out, with the message of its own timeout. -/
def timeoutAxios : AxiosGet := fun url _ =>
  if url = "http://localhost:5000/api/recommend" then .error noResponseError
  else .error searchTimeoutError

/-- An `axios.get` double for a downstream at `http://localhost:5000` whose
recommend endpoint alone gets no answer; every other call resolves with an
empty object. -/
def recommendDownAxios : AxiosGet := fun url _ =>
  if url = "http://localhost:5000/api/recommend" then .error noResponseError
  else .ok ⟨.obj []⟩

/-- The error object `new APIError('Movie not found', 404)`. -/
def notFoundError : JsVal :=
  .obj [("statusCode", .num 404), ("message", .str "Movie not found"),
        ("stack", .str "Error: Movie not found")]

/-- An error raised before any request was sent: neither `response` nor
`request`. -/
def localError : JsVal :=
  .obj [("message", .str "Invalid URL")]

/-- The request `GET /api/recommend?title=Inception`. -/
def inceptionRequest : Request := ⟨[("title", .str "Inception")]⟩

/-- The request `GET /api/search?query=Incep`. -/
def incepSearchRequest : Request := ⟨[("query", .str "Incep")]⟩

/-! ## Facts about the embedded operators -/

theorem trimChars_of_all_whitespace (cs : List Char)
    (h : ∀ c ∈ cs, isJsWhitespace c = true) : trimChars cs = [] := by
  have h1 : cs.dropWhile isJsWhitespace = [] := List.dropWhile_eq_nil_iff.mpr h
  simp [trimChars, h1]

theorem jsTrim_of_all_whitespace (s : String)
    (h : ∀ c ∈ s.data, isJsWhitespace c = true) : jsTrim s = "" := by
  unfold jsTrim
  rw [trimChars_of_all_whitespace s.data h]

theorem truthy_str_of_validTitle (t : String) (h : validTitle t) : truthy (.str t) = true := by
  have : t ≠ "" := by
    intro h0
    apply h
    subst h0
    rfl
  simp [truthy, this]

theorem truthy_str_of_validQuery (q : String) (h : validQuery q) : truthy (.str q) = true := by
  have : q ≠ "" := by
    intro h0
    subst h0
    have h2 : ¬ (2 ≤ jsLength (jsTrim "")) := by decide
    exact h2 h
  simp [truthy, this]

theorem send_of_valid (status body : JsVal) (h : validStatus status = true) :
    send status body = .ok ⟨status, body⟩ := by
  simp [send, h]

theorem send_of_invalid (status body : JsVal) (h : validStatus status = false) :
    send status body = .error .invalidStatus := by
  simp [send, h]

theorem validStatus_num (n : Int) (h1 : 100 ≤ n) (h2 : n ≤ 999) :
    validStatus (.num n) = true := by
  simp [validStatus, h1, h2]

theorem validStatus_200 : validStatus (.num 200) = true := by decide

theorem validStatus_400 : validStatus (.num 400) = true := by decide

theorem validStatus_500 : validStatus (.num 500) = true := by decide

theorem validStatus_503 : validStatus (.num 503) = true := by decide

theorem truthy_num (n : Int) : truthy (.num n) = (n != 0) := rfl

theorem getProp_obj (fields : List (String × JsVal)) (k : String) :
    getProp (.obj fields) k = .ok ((lookupField k fields).getD .undefined) := rfl

theorem lookupField_setField (k k' : String) (v : JsVal) (fs : List (String × JsVal)) :
    lookupField k (setField k' v fs) = if k' = k then some v else lookupField k fs := by
  induction fs with
  | nil => simp [setField, lookupField]
  | cons kv rest ih =>
    obtain ⟨k0, v0⟩ := kv
    by_cases h0 : k0 = k'
    · by_cases h1 : k' = k
      · simp [setField, lookupField, h0, h1]
      · simp [setField, lookupField, h0, h1]
    · by_cases h1 : k' = k
      · subst h1
        simp [setField, lookupField, h0, ih]
      · simp only [setField, h0, if_false, lookupField, ih, h1]

theorem lookupField_eq_none_of_not_mem (k : String) (fs : List (String × JsVal))
    (h : k ∉ fs.map Prod.fst) : lookupField k fs = none := by
  induction fs with
  | nil => rfl
  | cons kv rest ih =>
    obtain ⟨k0, v0⟩ := kv
    simp only [List.map_cons, List.mem_cons, not_or] at h
    have h0 : ¬ k0 = k := fun e => h.1 e.symm
    simp [lookupField, h0, ih h.2]

theorem lookupField_foldl_setField (k : String) (p base : List (String × JsVal))
    (hp : (p.map Prod.fst).Nodup) :
    lookupField k (p.foldl (fun acc kv => setField kv.1 kv.2 acc) base) =
      (lookupField k p).orElse (fun _ => lookupField k base) := by
  induction p generalizing base with
  | nil => simp [lookupField]
  | cons kv rest ih =>
    obtain ⟨k0, v0⟩ := kv
    simp only [List.map_cons, List.nodup_cons] at hp
    simp only [List.foldl_cons]
    rw [ih _ hp.2, lookupField_setField]
    by_cases h0 : k0 = k
    · subst h0
      simp [lookupField, lookupField_eq_none_of_not_mem k0 rest hp.1]
    · simp [lookupField, h0]

/-! ## Input validation (C1, C2) -/

/-- C1: when the `title` query parameter is absent, empty or made of
whitespace only, `getRecommendations` answers 400 with
`success: false, error: 'Please provide a movie title'` and makes no call on
the downstream client, whatever that client is. -/
theorem recommend_blank_title_is_400_without_call (ml : MLServiceLike) (req : Request)
    (h : lookupField "title" req.query = none ∨
      ∃ s, lookupField "title" req.query = some (.str s) ∧
        ∀ c ∈ s.data, isJsWhitespace c = true) :
    (MovieController.getRecommendations ml req).response = missingTitleResponse ∧
      (MovieController.getRecommendations ml req).calls = [] := by
  rcases h with h | ⟨s, hs, hws⟩
  · simp [MovieController.getRecommendations, MovieController.getRecommendationsTry, h, truthy,
      missingTitleResponse, send_of_valid, validStatus_400]
  · by_cases hempty : s = ""
    · simp [MovieController.getRecommendations, MovieController.getRecommendationsTry, hs, truthy,
        hempty, missingTitleResponse, send_of_valid, validStatus_400]
    · simp [MovieController.getRecommendations, MovieController.getRecommendationsTry, hs, truthy,
        hempty, callTrim, jsTrim_of_all_whitespace s hws, missingTitleResponse, send_of_valid, validStatus_400]

/-- C1 at the title made of two spaces and a tab, with a client that would
throw if it were called. -/
theorem recommend_blank_title_witness :
    (MovieController.getRecommendations throwingClient ⟨[("title", .str "  \t")]⟩).response
        = missingTitleResponse ∧
      (MovieController.getRecommendations throwingClient ⟨[("title", .str "  \t")]⟩).calls = [] :=
  recommend_blank_title_is_400_without_call throwingClient ⟨[("title", .str "  \t")]⟩
    (Or.inr ⟨"  \t", rfl, by decide⟩)

/-- C2: when the `query` parameter is absent or its trimmed length is below
2, `searchMovies` answers 400 with
`success: false, error: 'Search query must be at least 2 characters'` and
makes no call on the downstream client. -/
theorem search_short_query_is_400_without_call (ml : MLServiceLike) (req : Request)
    (h : lookupField "query" req.query = none ∨
      ∃ s, lookupField "query" req.query = some (.str s) ∧ jsLength (jsTrim s) < 2) :
    (MovieController.searchMovies ml req).response = shortQueryResponse ∧
      (MovieController.searchMovies ml req).calls = [] := by
  rcases h with h | ⟨s, hs, hlen⟩
  · simp [MovieController.searchMovies, MovieController.searchMoviesTry, h, truthy,
      shortQueryResponse, send_of_valid, validStatus_400]
  · by_cases hempty : s = ""
    · simp [MovieController.searchMovies, MovieController.searchMoviesTry, hs, truthy,
        hempty, shortQueryResponse, send_of_valid, validStatus_400]
    · simp [MovieController.searchMovies, MovieController.searchMoviesTry, hs, truthy,
        hempty, callTrim, hlen, shortQueryResponse, send_of_valid, validStatus_400]

/-- C2 at the query made of one letter between spaces. -/
theorem search_short_query_witness :
    (MovieController.searchMovies throwingClient ⟨[("query", .str " a ")]⟩).response
        = shortQueryResponse ∧
      (MovieController.searchMovies throwingClient ⟨[("query", .str " a ")]⟩).calls = [] :=
  search_short_query_is_400_without_call throwingClient ⟨[("query", .str " a ")]⟩
    (Or.inr ⟨" a ", rfl, by decide⟩)

/-! ## How the handlers map a client result -/

/-- The recommend handler on a valid title when the client returns an object
whose `success` is falsy and whose status (500 when falsy) is a valid one:
one client call, that status and the `error` of the result. -/
theorem recommend_of_failure_result (ml : MLServiceLike) (req : Request) (t : String)
    (rf : List (String × JsVal))
    (htitle : lookupField "title" req.query = some (.str t)) (hvalid : validTitle t)
    (hres : ml.getRecommendations (.str t) = .ok (.obj rf))
    (hfail : truthy ((lookupField "success" rf).getD .undefined) = false)
    (hstatus : validStatus (jsOr ((lookupField "status" rf).getD .undefined) (.num 500)) = true) :
    MovieController.getRecommendations ml req =
      ⟨[Call.getRecommendations (.str t)],
        ⟨jsOr ((lookupField "status" rf).getD .undefined) (.num 500),
          errorEnvelope ((lookupField "error" rf).getD .undefined)⟩⟩ := by
  have hv : jsTrim t ≠ "" := hvalid
  simp [MovieController.getRecommendations, MovieController.getRecommendationsTry, htitle,
    truthy_str_of_validTitle t hvalid, callTrim, hv, hres, getProp_obj, hfail, errorEnvelope,
    send_of_valid _ _ hstatus, bind, Except.bind]

/-- The recommend handler on a valid title when the client returns an object
whose `success` is truthy: one client call, 200, and the payload spread after
`success: true`. -/
theorem recommend_of_success_result (ml : MLServiceLike) (req : Request) (t : String)
    (rf : List (String × JsVal))
    (htitle : lookupField "title" req.query = some (.str t)) (hvalid : validTitle t)
    (hres : ml.getRecommendations (.str t) = .ok (.obj rf))
    (hok : truthy ((lookupField "success" rf).getD .undefined) = true) :
    MovieController.getRecommendations ml req =
      ⟨[Call.getRecommendations (.str t)],
        ⟨.num 200, objectSpread [("success", .bool true)] ((lookupField "data" rf).getD .undefined)⟩⟩ := by
  have hv : jsTrim t ≠ "" := hvalid
  simp [MovieController.getRecommendations, MovieController.getRecommendationsTry, htitle,
    truthy_str_of_validTitle t hvalid, callTrim, hv, hres, getProp_obj, hok,
    send_of_valid, validStatus_200, bind, Except.bind]

/-- The search handler on a valid query when the client returns an object
whose `success` is falsy and whose status (500 when falsy) is a valid one. -/
theorem search_of_failure_result (ml : MLServiceLike) (req : Request) (q : String)
    (rf : List (String × JsVal))
    (hquery : lookupField "query" req.query = some (.str q)) (hvalid : validQuery q)
    (hres : ml.searchMovies (.str q) = .ok (.obj rf))
    (hfail : truthy ((lookupField "success" rf).getD .undefined) = false)
    (hstatus : validStatus (jsOr ((lookupField "status" rf).getD .undefined) (.num 500)) = true) :
    MovieController.searchMovies ml req =
      ⟨[Call.searchMovies (.str q)],
        ⟨jsOr ((lookupField "status" rf).getD .undefined) (.num 500),
          errorEnvelope ((lookupField "error" rf).getD .undefined)⟩⟩ := by
  have hv : ¬ jsLength (jsTrim q) < 2 := Nat.not_lt.mpr hvalid
  simp [MovieController.searchMovies, MovieController.searchMoviesTry, hquery,
    truthy_str_of_validQuery q hvalid, callTrim, hv, hres, getProp_obj, hfail, errorEnvelope,
    send_of_valid _ _ hstatus, bind, Except.bind]

/-- The search handler on a valid query when the client returns an object
whose `success` is truthy. -/
theorem search_of_success_result (ml : MLServiceLike) (req : Request) (q : String)
    (rf : List (String × JsVal))
    (hquery : lookupField "query" req.query = some (.str q)) (hvalid : validQuery q)
    (hres : ml.searchMovies (.str q) = .ok (.obj rf))
    (hok : truthy ((lookupField "success" rf).getD .undefined) = true) :
    MovieController.searchMovies ml req =
      ⟨[Call.searchMovies (.str q)],
        ⟨.num 200, objectSpread [("success", .bool true)] ((lookupField "data" rf).getD .undefined)⟩⟩ := by
  have hv : ¬ jsLength (jsTrim q) < 2 := Nat.not_lt.mpr hvalid
  simp [MovieController.searchMovies, MovieController.searchMoviesTry, hquery,
    truthy_str_of_validQuery q hvalid, callTrim, hv, hres, getProp_obj, hok,
    send_of_valid, validStatus_200, bind, Except.bind]

/-! ## Failure classification in the client (C3, C4) -/

/-- Branch 1 of `getRecommendations`: the error carries a response object
whose body is neither `null` nor `undefined`.  The result takes the status of
the response and the `error` property of the body, or the fallback text when
that property is falsy.  A `request` property on the error plays no part. -/
theorem getRecommendationsCatch_of_response (fields rfields : List (String × JsVal))
    (data bodyError : JsVal)
    (hresp : lookupField "response" fields = some (.obj rfields))
    (hdata : (lookupField "data" rfields).getD .undefined = data)
    (herr : getProp data "error" = .ok bodyError) :
    MLService.getRecommendationsCatch (.obj fields) =
      .ok (.obj [("success", .bool false),
                 ("error", jsOr bodyError (.str "Failed to get recommendations")),
                 ("status", (lookupField "status" rfields).getD .undefined)]) := by
  simp [MLService.getRecommendationsCatch, getProp_obj, hresp, truthy, hdata, herr, bind, Except.bind,
    pure, Except.pure]

/-- Branch 2 of `getRecommendations`: no truthy `response`, a truthy
`request`. -/
theorem getRecommendationsCatch_of_request (fields : List (String × JsVal))
    (hresp : truthy ((lookupField "response" fields).getD .undefined) = false)
    (hreq : truthy ((lookupField "request" fields).getD .undefined) = true) :
    MLService.getRecommendationsCatch (.obj fields) =
      .ok (.obj [("success", .bool false),
                 ("error", .str "ML service is not responding. Please ensure Flask server is running."),
                 ("status", .num 503)]) := by
  simp [MLService.getRecommendationsCatch, getProp, hresp, hreq, bind, Except.bind,
    pure, Except.pure]

/-- Branch 3 of `getRecommendations`: neither a truthy `response` nor a
truthy `request`; the result carries the message of the error and 500. -/
theorem getRecommendationsCatch_of_neither (fields : List (String × JsVal))
    (hresp : truthy ((lookupField "response" fields).getD .undefined) = false)
    (hreq : truthy ((lookupField "request" fields).getD .undefined) = false) :
    MLService.getRecommendationsCatch (.obj fields) =
      .ok (.obj [("success", .bool false),
                 ("error", (lookupField "message" fields).getD .undefined),
                 ("status", .num 500)]) := by
  simp [MLService.getRecommendationsCatch, getProp, hresp, hreq, bind, Except.bind,
    pure, Except.pure]

/-- Branch 1 of `searchMovies`. -/
theorem searchMoviesCatch_of_response (fields rfields : List (String × JsVal))
    (data bodyError : JsVal)
    (hresp : lookupField "response" fields = some (.obj rfields))
    (hdata : (lookupField "data" rfields).getD .undefined = data)
    (herr : getProp data "error" = .ok bodyError) :
    MLService.searchMoviesCatch (.obj fields) =
      .ok (.obj [("success", .bool false),
                 ("error", jsOr bodyError (.str "Search failed")),
                 ("status", (lookupField "status" rfields).getD .undefined)]) := by
  simp [MLService.searchMoviesCatch, getProp_obj, hresp, truthy, hdata, herr, bind, Except.bind,
    pure, Except.pure]

/-- The only other branch of `searchMovies`: no truthy `response`, whatever
`request` is. -/
theorem searchMoviesCatch_of_no_response (fields : List (String × JsVal))
    (hresp : truthy ((lookupField "response" fields).getD .undefined) = false) :
    MLService.searchMoviesCatch (.obj fields) =
      .ok (.obj [("success", .bool false),
                 ("error", .str "ML service is not responding"),
                 ("status", .num 503)]) := by
  simp [MLService.searchMoviesCatch, getProp, hresp, bind, Except.bind, pure, Except.pure]

/-- C3 (failing input): the downstream answers 500 with the JSON body `null`.
The error has a response, so branch 1 is taken; reading `error.response.data.error`
on `null` raises a `TypeError` inside the `catch` block and `getRecommendations`
throws instead of returning the status-500 result with the fallback message. -/
theorem getRecommendations_throws_on_null_body :
    MLService.getRecommendations (rejectingAxios (responseError 500 .null))
      "http://localhost:5000" (.str "Inception") = .error .typeError := by
  rfl

/-- C4 (failing input): `axios.get` fails before sending, with an error that
has neither `response` nor `request`.  `getRecommendations` returns the
message of the error with status 500; `searchMovies` on the same error
returns 'ML service is not responding' with status 503. -/
theorem searchMovies_local_error_is_503 :
    MLService.searchMovies (rejectingAxios localError) "http://localhost:5000" (.str "Incep")
        = .ok (.obj [("success", .bool false),
                     ("error", .str "ML service is not responding"),
                     ("status", .num 503)]) ∧
      MLService.getRecommendations (rejectingAxios localError) "http://localhost:5000" (.str "Incep")
        = .ok (.obj [("success", .bool false),
                     ("error", .str "Invalid URL"),
                     ("status", .num 500)]) := by
  constructor <;> rfl

/-! ## Downstream rejection and unavailability through the handlers (C5, C6) -/

/-- C5 (counterexample): the downstream answers 404 with the body
`error: ''`.  The recommend handler answers 404 with the fallback text
'Failed to get recommendations', not with the empty message of the body. -/
theorem recommend_empty_error_field_is_replaced :
    (MovieController.getRecommendations
        (mlService (rejectingAxios (responseError 404 (.obj [("error", .str "")])))
          "http://localhost:5000") inceptionRequest).response
      = ⟨.num 404, errorEnvelope (.str "Failed to get recommendations")⟩ ∧
    (MovieController.getRecommendations
        (mlService (rejectingAxios (responseError 404 (.obj [("error", .str "")])))
          "http://localhost:5000") inceptionRequest).response
      ≠ ⟨.num 404, errorEnvelope (.str "")⟩ := by
  have h : (MovieController.getRecommendations
        (mlService (rejectingAxios (responseError 404 (.obj [("error", .str "")])))
          "http://localhost:5000") inceptionRequest).response
      = ⟨.num 404, errorEnvelope (.str "Failed to get recommendations")⟩ := rfl
  refine ⟨h, ?_⟩
  rw [h]
  simp [errorEnvelope]

/-- C5 (amended): for a valid title and a downstream answer whose status `s`
is an integer from 100 to 999 and whose body is an object, the recommend
handler over the real client answers exactly status `s` and
`success: false, error: e`, where `e` is the `error` property `m` of the body
when `m` is truthy, and the text 'Failed to get recommendations' when `m` is
falsy (`''`, `0`, `false`, `null`) or the body has no `error` property. -/
theorem recommend_passes_rejection_through (axiosGet : AxiosGet) (baseUrl : String)
    (req : Request) (t : String) (fields rfields dfields : List (String × JsVal)) (s : Int)
    (htitle : lookupField "title" req.query = some (.str t)) (hvalid : validTitle t)
    (hrej : axiosGet (baseUrl ++ "/api/recommend")
      (.obj [("params", .obj [("title", .str t)]), ("timeout", .num 10000)]) = .error (.obj fields))
    (hresp : lookupField "response" fields = some (.obj rfields))
    (hstatus : lookupField "status" rfields = some (.num s)) (hlo : 100 ≤ s) (hhi : s ≤ 999)
    (hdata : lookupField "data" rfields = some (.obj dfields)) :
    (MovieController.getRecommendations (mlService axiosGet baseUrl) req).response
      = ⟨.num s, errorEnvelope
          (if truthy ((lookupField "error" dfields).getD .undefined)
            then (lookupField "error" dfields).getD .undefined
            else .str "Failed to get recommendations")⟩ := by
  have hcatch := getRecommendationsCatch_of_response fields rfields (.obj dfields)
    ((lookupField "error" dfields).getD .undefined) hresp (by simp [hdata]) (getProp_obj _ _)
  have hres : (mlService axiosGet baseUrl).getRecommendations (.str t) = .ok (.obj
      [("success", .bool false),
       ("error", jsOr ((lookupField "error" dfields).getD .undefined)
          (.str "Failed to get recommendations")),
       ("status", (lookupField "status" rfields).getD .undefined)]) := by
    simp [mlService, MLService.getRecommendations, hrej, hcatch]
  have hs0 : s ≠ 0 := by omega
  have hst : jsOr ((lookupField "status"
      [("success", JsVal.bool false),
       ("error", jsOr ((lookupField "error" dfields).getD .undefined)
          (.str "Failed to get recommendations")),
       ("status", (lookupField "status" rfields).getD .undefined)]).getD .undefined) (.num 500)
      = .num s := by
    simp [lookupField, jsOr, hstatus, truthy_num, hs0]
  rw [recommend_of_failure_result _ req t _ htitle hvalid hres (by simp [lookupField, truthy])
    (by rw [hst]; exact validStatus_num s hlo hhi)]
  rw [hst]
  simp [lookupField, jsOr]

/-- C5 at the downstream answer 404 `error: 'Movie not found'`. -/
theorem recommend_passes_rejection_through_witness :
    (MovieController.getRecommendations
        (mlService (rejectingAxios (responseError 404 (.obj [("error", .str "Movie not found")])))
          "http://localhost:5000") inceptionRequest).response
      = ⟨.num 404, errorEnvelope (.str "Movie not found")⟩ :=
  recommend_passes_rejection_through
    (rejectingAxios (responseError 404 (.obj [("error", .str "Movie not found")])))
    "http://localhost:5000" inceptionRequest "Inception"
    [("message", .str "Request failed"), ("request", .obj []),
      ("response", .obj [("status", .num 404), ("data", .obj [("error", .str "Movie not found")])])]
    [("status", .num 404), ("data", .obj [("error", .str "Movie not found")])]
    [("error", .str "Movie not found")] 404
    rfl (by decide) rfl rfl rfl (by decide) (by decide) rfl

/-- A status outside 100 to 999 cannot be sent: the send raises inside the
`try` block and the recommend handler answers 500 with the generic
envelope. -/
theorem recommend_invalid_downstream_status_is_500 :
    (MovieController.getRecommendations
        (mlService (rejectingAxios (responseError 42 (.obj [("error", .str "Movie not found")])))
          "http://localhost:5000") inceptionRequest).response
      = internalErrorResponse := by
  rfl

/-- C6 (counterexample): the same no-response failure gives two different
messages.  No single text `M` is the `error` of both the recommend and the
search answer. -/
theorem no_common_unavailable_message :
    ¬ ∃ M : JsVal,
      (MovieController.getRecommendations
          (mlService (rejectingAxios noResponseError) "http://localhost:5000")
          inceptionRequest).response = ⟨.num 503, errorEnvelope M⟩ ∧
      (MovieController.searchMovies
          (mlService (rejectingAxios noResponseError) "http://localhost:5000")
          incepSearchRequest).response = ⟨.num 503, errorEnvelope M⟩ := by
  rintro ⟨M, h1, h2⟩
  have e1 : (MovieController.getRecommendations
          (mlService (rejectingAxios noResponseError) "http://localhost:5000")
          inceptionRequest).response = ⟨.num 503, errorEnvelope
            (.str "ML service is not responding. Please ensure Flask server is running.")⟩ := rfl
  have e2 : (MovieController.searchMovies
          (mlService (rejectingAxios noResponseError) "http://localhost:5000")
          incepSearchRequest).response = ⟨.num 503, errorEnvelope
            (.str "ML service is not responding")⟩ := rfl
  rw [e1] at h1
  rw [e2] at h2
  simp [errorEnvelope] at h1 h2
  rw [← h1] at h2
  simp at h2

/-- C6 (amended): when a downstream call gets no answer (the error of that
call has no truthy `response` and has a truthy `request`), the gateway answers
503 with `success: false, error: M`, where `M` is fixed per operation:
'ML service is not responding. Please ensure Flask server is running.' for
recommend and 'ML service is not responding' for search.  Each operation is
stated for its own call, whatever `axios.get` does on any other call. -/
theorem unavailable_is_503_with_fixed_message_per_operation (axiosGet : AxiosGet)
    (baseUrl : String) :
    (∀ (req : Request) (t : String) (fields : List (String × JsVal)),
      lookupField "title" req.query = some (.str t) → validTitle t →
      axiosGet (baseUrl ++ "/api/recommend")
        (.obj [("params", .obj [("title", .str t)]), ("timeout", .num 10000)])
        = .error (.obj fields) →
      truthy ((lookupField "response" fields).getD .undefined) = false →
      truthy ((lookupField "request" fields).getD .undefined) = true →
      (MovieController.getRecommendations (mlService axiosGet baseUrl) req).response
        = ⟨.num 503, errorEnvelope
            (.str "ML service is not responding. Please ensure Flask server is running.")⟩) ∧
    (∀ (req : Request) (q : String) (fields : List (String × JsVal)),
      lookupField "query" req.query = some (.str q) → validQuery q →
      axiosGet (baseUrl ++ "/api/search")
        (.obj [("params", .obj [("query", .str q)]), ("timeout", .num 5000)])
        = .error (.obj fields) →
      truthy ((lookupField "response" fields).getD .undefined) = false →
      truthy ((lookupField "request" fields).getD .undefined) = true →
      (MovieController.searchMovies (mlService axiosGet baseUrl) req).response
        = ⟨.num 503, errorEnvelope (.str "ML service is not responding")⟩) := by
  constructor
  · intro req t fields htitle hvalidT hrej hresp hreq
    have hres : (mlService axiosGet baseUrl).getRecommendations (.str t) = .ok (.obj
        [("success", .bool false),
         ("error", .str "ML service is not responding. Please ensure Flask server is running."),
         ("status", .num 503)]) := by
      simp [mlService, MLService.getRecommendations, hrej,
        getRecommendationsCatch_of_request fields hresp hreq]
    rw [recommend_of_failure_result _ req t _ htitle hvalidT hres (by simp [lookupField, truthy])
      (by decide)]
    simp [lookupField, jsOr, truthy]
  · intro req q fields hquery hvalidQ hrej hresp _hreq
    have hres : (mlService axiosGet baseUrl).searchMovies (.str q) = .ok (.obj
        [("success", .bool false),
         ("error", .str "ML service is not responding"),
         ("status", .num 503)]) := by
      simp [mlService, MLService.searchMovies, hrej,
        searchMoviesCatch_of_no_response fields hresp]
    rw [search_of_failure_result _ req q _ hquery hvalidQ hres (by simp [lookupField, truthy])
      (by decide)]
    simp [lookupField, jsOr, truthy]

/-- C6 at a downstream that never answers (the recommend call times out
after 10 seconds and the search call after 5, with two different error
objects), and at a downstream whose recommend call alone gets no answer. -/
theorem unavailable_is_503_witness :
    (MovieController.getRecommendations (mlService timeoutAxios "http://localhost:5000")
        inceptionRequest).response
        = ⟨.num 503, errorEnvelope
            (.str "ML service is not responding. Please ensure Flask server is running.")⟩ ∧
      (MovieController.searchMovies (mlService timeoutAxios "http://localhost:5000")
        incepSearchRequest).response
        = ⟨.num 503, errorEnvelope (.str "ML service is not responding")⟩ ∧
      (MovieController.getRecommendations (mlService recommendDownAxios "http://localhost:5000")
        inceptionRequest).response
        = ⟨.num 503, errorEnvelope
            (.str "ML service is not responding. Please ensure Flask server is running.")⟩ :=
  ⟨(unavailable_is_503_with_fixed_message_per_operation timeoutAxios "http://localhost:5000").1
      inceptionRequest "Inception"
      [("message", .str "timeout of 10000ms exceeded"), ("request", .obj [])]
      rfl (by decide) rfl rfl rfl,
    (unavailable_is_503_with_fixed_message_per_operation timeoutAxios "http://localhost:5000").2
      incepSearchRequest "Incep"
      [("message", .str "timeout of 5000ms exceeded"), ("request", .obj [])]
      rfl (by decide) rfl rfl rfl,
    (unavailable_is_503_with_fixed_message_per_operation recommendDownAxios
        "http://localhost:5000").1
      inceptionRequest "Inception"
      [("message", .str "timeout of 10000ms exceeded"), ("request", .obj [])]
      rfl (by decide) rfl rfl rfl⟩

/-! ## The health handler (C7) -/

/-- C7 (counterexample): the health probe succeeds with an empty body, which
axios delivers as the payload `''`.  The handler answers 200 with
`mlService: 'healthy'` and `mlServiceDetails: null`, not the payload.  The
same happens for the JSON payload `0`. -/
theorem health_empty_payload_becomes_null :
    ((MovieController.healthCheck
        (mlService (resolvingAxios (.str "")) "http://localhost:5000")).response
      = ⟨.num 200, healthBody (.str "healthy") .null⟩ ∧
    (MovieController.healthCheck
        (mlService (resolvingAxios (.str "")) "http://localhost:5000")).response
      ≠ ⟨.num 200, healthBody (.str "healthy") (.str "")⟩) ∧
    ((MovieController.healthCheck
        (mlService (resolvingAxios (.num 0)) "http://localhost:5000")).response
      = ⟨.num 200, healthBody (.str "healthy") .null⟩ ∧
    (MovieController.healthCheck
        (mlService (resolvingAxios (.num 0)) "http://localhost:5000")).response
      ≠ ⟨.num 200, healthBody (.str "healthy") (.num 0)⟩) := by
  have h : (MovieController.healthCheck
        (mlService (resolvingAxios (.str "")) "http://localhost:5000")).response
      = ⟨.num 200, healthBody (.str "healthy") .null⟩ := rfl
  have h0 : (MovieController.healthCheck
        (mlService (resolvingAxios (.num 0)) "http://localhost:5000")).response
      = ⟨.num 200, healthBody (.str "healthy") .null⟩ := rfl
  refine ⟨⟨h, ?_⟩, ⟨h0, ?_⟩⟩
  · rw [h]
    simp [healthBody]
  · rw [h0]
    simp [healthBody]

/-- C7 (amended): whatever `axios.get` does on the health probe, the health
handler over the real client makes one client call and answers 200.  When the
probe fails, `checkHealth` returns `success: false, error: 'ML service is down'`
with no status, and the body is `success: true, backend: 'healthy',
mlService: 'down', mlServiceDetails: null`.  When the probe succeeds with
payload `d`, the body has `mlService: 'healthy'` and `mlServiceDetails` is `d`
when `d` is truthy and `null` otherwise. -/
theorem health_is_always_200 (axiosGet : AxiosGet) (baseUrl : String) :
    (MovieController.healthCheck (mlService axiosGet baseUrl)).response.status = .num 200 ∧
    (MovieController.healthCheck (mlService axiosGet baseUrl)).calls = [Call.checkHealth] ∧
    match axiosGet (baseUrl ++ "/api/health") (.obj [("timeout", .num 3000)]) with
    | .error _ =>
      MLService.checkHealth axiosGet baseUrl
          = .ok (.obj [("success", .bool false), ("error", .str "ML service is down")]) ∧
        (MovieController.healthCheck (mlService axiosGet baseUrl)).response.body
          = healthBody (.str "down") .null
    | .ok probe =>
      MLService.checkHealth axiosGet baseUrl = .ok (okResult probe.data) ∧
        (MovieController.healthCheck (mlService axiosGet baseUrl)).response.body
          = healthBody (.str "healthy") (if truthy probe.data then probe.data else .null) := by
  cases h : axiosGet (baseUrl ++ "/api/health") (.obj [("timeout", .num 3000)]) with
  | error e =>
    simp [MovieController.healthCheck, MovieController.healthCheckTry, mlService,
      MLService.checkHealth, h, getProp_obj, lookupField, truthy, jsOr, healthBody,
      send_of_valid, validStatus_200, bind, Except.bind]
  | ok probe =>
    simp [MovieController.healthCheck, MovieController.healthCheckTry, mlService,
      MLService.checkHealth, h, getProp_obj, lookupField, jsOr, healthBody, okResult,
      send_of_valid, validStatus_200, bind, Except.bind]
    simp [truthy]

/-! ## The process-wide error handler (C8) -/

theorem isUndefined_of_truthy (v : JsVal) (h : truthy v = true) : isUndefined v = false := by
  cases v <;> simp_all [truthy, isUndefined]

theorem isUndefined_jsOr (a b : JsVal) (hb : isUndefined b = false) :
    isUndefined (jsOr a b) = false := by
  unfold jsOr
  by_cases h : truthy a = true
  · simp [h, isUndefined_of_truthy a h]
  · simp [h, hb]

theorem validStatus_jsOr_500 (sc : JsVal) (h : truthy sc = false ∨ validStatus sc = true) :
    validStatus (jsOr sc (.num 500)) = true := by
  unfold jsOr
  rcases h with h | h
  · simp [h, validStatus_500]
  · by_cases ht : truthy sc = true
    · simp [ht, h]
    · simp [ht, validStatus_500]

/-- C8: for every error object whose `statusCode` is not set or is a valid
HTTP status code (an integer from 100 to 999), `errorHandler` answers with
the status `err.statusCode` when that is set (truthy, the test the code makes
with `||`) and 500 otherwise, and with the message `err.message` when that is
set and 'Internal Server Error' otherwise.  The JSON body is
`success: false, status, message`, followed by a `stack` property exactly
when `NODE_ENV` is `'development'` and the error has a stack; for every other
environment value, or none, the body has no `stack`. -/
theorem errorHandler_contract (nodeEnv : Option String) (fields : List (String × JsVal))
    (hstatus : truthy ((lookupField "statusCode" fields).getD .undefined) = false ∨
      validStatus ((lookupField "statusCode" fields).getD .undefined) = true) :
    ∃ res : Response,
      errorHandler nodeEnv (.obj fields) = .ok res ∧
      res.status =
        (if truthy ((lookupField "statusCode" fields).getD .undefined)
          then (lookupField "statusCode" fields).getD .undefined else .num 500) ∧
      jsonFields res.body =
        [("success", .bool false),
         ("status", res.status),
         ("message",
            if truthy ((lookupField "message" fields).getD .undefined)
              then (lookupField "message" fields).getD .undefined
              else .str "Internal Server Error")] ++
        (if nodeEnv = some "development" ∧
              isUndefined ((lookupField "stack" fields).getD .undefined) = false
          then [("stack", (lookupField "stack" fields).getD .undefined)] else []) := by
  have hv := validStatus_jsOr_500 _ hstatus
  have h1 : isUndefined (jsOr ((lookupField "statusCode" fields).getD .undefined) (.num 500))
      = false := isUndefined_jsOr _ _ rfl
  have h2 : isUndefined (jsOr ((lookupField "message" fields).getD .undefined)
      (.str "Internal Server Error")) = false := isUndefined_jsOr _ _ rfl
  have h0 : isUndefined (.bool false) = false := rfl
  have hu : isUndefined .undefined = true := rfl
  have hrun : errorHandler nodeEnv (.obj fields) = .ok
      ⟨jsOr ((lookupField "statusCode" fields).getD .undefined) (.num 500),
        .obj [("success", .bool false),
              ("status", jsOr ((lookupField "statusCode" fields).getD .undefined) (.num 500)),
              ("message", jsOr ((lookupField "message" fields).getD .undefined)
                (.str "Internal Server Error")),
              ("stack", if nodeEnv = some "development"
                then (lookupField "stack" fields).getD .undefined else .undefined)]⟩ := by
    by_cases hdev : nodeEnv = some "development"
    · simp [errorHandler, getProp_obj, hdev, send_of_valid _ _ hv, bind, Except.bind, pure,
        Except.pure]
    · simp [errorHandler, getProp_obj, hdev, send_of_valid _ _ hv, bind, Except.bind, pure,
        Except.pure]
  refine ⟨_, hrun, rfl, ?_⟩
  have hfilter : jsonFields (.obj [("success", .bool false),
              ("status", jsOr ((lookupField "statusCode" fields).getD .undefined) (.num 500)),
              ("message", jsOr ((lookupField "message" fields).getD .undefined)
                (.str "Internal Server Error")),
              ("stack", if nodeEnv = some "development"
                then (lookupField "stack" fields).getD .undefined else .undefined)])
      = [("success", .bool false),
         ("status", jsOr ((lookupField "statusCode" fields).getD .undefined) (.num 500)),
         ("message", jsOr ((lookupField "message" fields).getD .undefined)
                (.str "Internal Server Error"))] ++
        (if nodeEnv = some "development" ∧
              isUndefined ((lookupField "stack" fields).getD .undefined) = false
          then [("stack", (lookupField "stack" fields).getD .undefined)] else []) := by
    by_cases hdev : nodeEnv = some "development"
    · by_cases hst : isUndefined ((lookupField "stack" fields).getD .undefined) = true
      · simp [jsonFields, List.filter, h0, h1, h2, hdev, hst]
      · simp [jsonFields, List.filter, h0, h1, h2, hdev, hst]
    · simp [jsonFields, List.filter, h0, h1, h2, hdev, hu]
  exact hfilter

/-- C8 at an `APIError('Movie not found', 404)` in production: status 404 and
a body without `stack`. -/
theorem errorHandler_contract_witness :
    ∃ res : Response,
      errorHandler (some "production") notFoundError = .ok res ∧
      res.status = .num 404 ∧
      jsonFields res.body =
        [("success", .bool false), ("status", res.status), ("message", .str "Movie not found")] :=
  errorHandler_contract (some "production")
    [("statusCode", .num 404), ("message", .str "Movie not found"),
      ("stack", .str "Error: Movie not found")]
    (Or.inr (by decide))

/-- The same error in development: the body ends with its `stack`. -/
theorem errorHandler_development_has_stack :
    errorHandler (some "development") notFoundError = .ok
      ⟨.num 404, .obj [("success", .bool false), ("status", .num 404),
                       ("message", .str "Movie not found"),
                       ("stack", .str "Error: Movie not found")]⟩ := by
  rfl

/-- An error with no `statusCode` and an empty message, with `NODE_ENV` not
set: 500 and 'Internal Server Error'. -/
theorem errorHandler_defaults :
    errorHandler none (.obj [("message", .str "")]) = .ok
      ⟨.num 500, .obj [("success", .bool false), ("status", .num 500),
                       ("message", .str "Internal Server Error"),
                       ("stack", .undefined)]⟩ := by
  rfl

/-- A `statusCode` outside 100 to 999 cannot be sent: `errorHandler` throws
and sends no envelope. -/
theorem errorHandler_throws_on_invalid_status :
    errorHandler none (.obj [("statusCode", .num 1000), ("message", .str "x")])
      = .error .invalidStatus := by
  rfl

/-! ## Exceptions inside the handlers (C9) -/

/-- A client that throws on a valid title makes the `try` block of the
recommend handler raise, after one client call. -/
theorem recommendTry_raises_of_client_throw (ml : MLServiceLike) (req : Request) (t : String)
    (e : Thrown) (htitle : lookupField "title" req.query = some (.str t)) (hvalid : validTitle t)
    (hthrow : ml.getRecommendations (.str t) = .error e) :
    MovieController.getRecommendationsTry ml req
      = ([Call.getRecommendations (.str t)], .error e) := by
  have hv : jsTrim t ≠ "" := hvalid
  simp [MovieController.getRecommendationsTry, htitle, truthy_str_of_validTitle t hvalid,
    callTrim, hv, hthrow, bind, Except.bind]

/-- A title that is an array (`?title[]=a`) is truthy and has no `trim`
method: the `try` block raises a `TypeError` before any client call. -/
theorem recommendTry_raises_on_array_title (ml : MLServiceLike) (items : List JsVal) :
    MovieController.getRecommendationsTry ml ⟨[("title", .arr items)]⟩
      = ([], .error .typeError) := by
  rfl

/-- C9 (counterexample): when the client throws, the health handler answers
500 with `success: false, backend: 'error', mlService: 'unknown'`, which is
not the generic envelope `success: false, error: 'Internal server error'`. -/
theorem health_fault_body_is_not_generic :
    (MovieController.healthCheck throwingClient).response = healthFaultResponse ∧
      (MovieController.healthCheck throwingClient).response ≠ internalErrorResponse := by
  have h : (MovieController.healthCheck throwingClient).response = healthFaultResponse := rfl
  refine ⟨h, ?_⟩
  rw [h]
  simp [healthFaultResponse, internalErrorResponse]

/-- C9 (amended): whenever anything is thrown inside the `try` block of a
handler, the handler does not propagate it and answers 500.  The body is the
generic envelope `success: false, error: 'Internal server error'` for
`getRecommendations` and `searchMovies`, and
`success: false, backend: 'error', mlService: 'unknown'` for `healthCheck`. -/
theorem handlers_answer_500_on_exception (ml : MLServiceLike) (req : Request) :
    ((∃ e, (MovieController.getRecommendationsTry ml req).2 = .error e) →
        (MovieController.getRecommendations ml req).response = internalErrorResponse) ∧
      ((∃ e, (MovieController.searchMoviesTry ml req).2 = .error e) →
        (MovieController.searchMovies ml req).response = internalErrorResponse) ∧
      ((∃ e, (MovieController.healthCheckTry ml).2 = .error e) →
        (MovieController.healthCheck ml).response = healthFaultResponse) := by
  refine ⟨?_, ?_, ?_⟩
  · rintro ⟨e, he⟩
    unfold MovieController.getRecommendations
    cases h : MovieController.getRecommendationsTry ml req with
    | mk calls result =>
      rw [h] at he
      simp only at he
      subst he
      rfl
  · rintro ⟨e, he⟩
    unfold MovieController.searchMovies
    cases h : MovieController.searchMoviesTry ml req with
    | mk calls result =>
      rw [h] at he
      simp only at he
      subst he
      rfl
  · rintro ⟨e, he⟩
    unfold MovieController.healthCheck
    cases h : MovieController.healthCheckTry ml with
    | mk calls result =>
      rw [h] at he
      simp only at he
      subst he
      rfl

/-- C9 at a client whose three methods throw, for the title 'Inception'
and the query 'Incep'. -/
theorem handlers_answer_500_witness :
    (MovieController.getRecommendations throwingClient inceptionRequest).response
        = internalErrorResponse ∧
      (MovieController.searchMovies throwingClient incepSearchRequest).response
        = internalErrorResponse ∧
      (MovieController.healthCheck throwingClient).response = healthFaultResponse :=
  ⟨(handlers_answer_500_on_exception throwingClient inceptionRequest).1 ⟨_, rfl⟩,
    (handlers_answer_500_on_exception throwingClient incepSearchRequest).2.1 ⟨_, rfl⟩,
    (handlers_answer_500_on_exception throwingClient inceptionRequest).2.2 ⟨_, rfl⟩⟩

/-! ## The success envelope (C10) -/

/-- C10 (counterexample): the downstream answers 200 with the payload
`success: false, matched: 'Inception'`.  The payload is spread after
`success: true`, so the body sent with status 200 has `success: false`. -/
theorem payload_success_field_overrides :
    (MovieController.getRecommendations
        (okClient (.obj [("success", .bool false), ("matched", .str "Inception")]))
        inceptionRequest).response
      = ⟨.num 200, .obj [("success", .bool false), ("matched", .str "Inception")]⟩ ∧
    lookupField "success" (ownEnumerable (MovieController.getRecommendations
        (okClient (.obj [("success", .bool false), ("matched", .str "Inception")]))
        inceptionRequest).response.body) ≠ some (.bool true) := by
  have h : (MovieController.getRecommendations
        (okClient (.obj [("success", .bool false), ("matched", .str "Inception")]))
        inceptionRequest).response
      = ⟨.num 200, .obj [("success", .bool false), ("matched", .str "Inception")]⟩ := rfl
  refine ⟨h, ?_⟩
  rw [h]
  simp [ownEnumerable, lookupField]

/-- C10 (amended): for a valid title or query and a client result
`success: true, data: p` where `p` is an object (its keys are distinct), the
recommend and search handlers answer 200 with a body that has exactly the
properties of `p`, with the values of `p`, and in addition `success: true`
when `p` has no `success` property of its own. -/
theorem success_envelope_spreads_payload (ml : MLServiceLike) (reqR reqS : Request)
    (t q : String) (p : List (String × JsVal))
    (htitle : lookupField "title" reqR.query = some (.str t)) (hvalidT : validTitle t)
    (hquery : lookupField "query" reqS.query = some (.str q)) (hvalidQ : validQuery q)
    (hkeys : (p.map Prod.fst).Nodup)
    (hresR : ml.getRecommendations (.str t) = .ok (okResult (.obj p)))
    (hresS : ml.searchMovies (.str q) = .ok (okResult (.obj p))) :
    ((MovieController.getRecommendations ml reqR).response.status = .num 200 ∧
      ∀ k, lookupField k (ownEnumerable (MovieController.getRecommendations ml reqR).response.body)
        = (lookupField k p).orElse (fun _ => if k = "success" then some (.bool true) else none)) ∧
    ((MovieController.searchMovies ml reqS).response.status = .num 200 ∧
      ∀ k, lookupField k (ownEnumerable (MovieController.searchMovies ml reqS).response.body)
        = (lookupField k p).orElse (fun _ => if k = "success" then some (.bool true) else none)) := by
  have hbase : ∀ k, lookupField k [("success", JsVal.bool true)]
      = if k = "success" then some (.bool true) else none := by
    intro k
    by_cases hk : k = "success"
    · simp [lookupField, hk]
    · have hk2 : ¬ "success" = k := fun e => hk e.symm
      simp [lookupField, hk, hk2]
  have hspread : ∀ k, lookupField k (ownEnumerable (objectSpread [("success", .bool true)] (.obj p)))
      = (lookupField k p).orElse (fun _ => if k = "success" then some (.bool true) else none) := by
    intro k
    simp only [objectSpread, ownEnumerable]
    rw [lookupField_foldl_setField k p _ hkeys, hbase k]
  rw [recommend_of_success_result ml reqR t _ htitle hvalidT hresR (by simp [lookupField, truthy]),
    search_of_success_result ml reqS q _ hquery hvalidQ hresS (by simp [lookupField, truthy])]
  simp only [lookupField, if_true, Option.getD_some, true_and]
  simp only [show ("success" = "data") = False from by decide, if_false, Option.getD_some]
  exact ⟨hspread, hspread⟩

/-- C10 at the payload `matched: 'Inception', recommendations: []`. -/
theorem success_envelope_witness :
    ((MovieController.getRecommendations
        (okClient (.obj [("matched", .str "Inception"), ("recommendations", .arr [])]))
        inceptionRequest).response.status = .num 200 ∧
      ∀ k, lookupField k (ownEnumerable (MovieController.getRecommendations
          (okClient (.obj [("matched", .str "Inception"), ("recommendations", .arr [])]))
          inceptionRequest).response.body)
        = (lookupField k [("matched", .str "Inception"), ("recommendations", .arr [])]).orElse
            (fun _ => if k = "success" then some (.bool true) else none)) ∧
    ((MovieController.searchMovies
        (okClient (.obj [("matched", .str "Inception"), ("recommendations", .arr [])]))
        incepSearchRequest).response.status = .num 200 ∧
      ∀ k, lookupField k (ownEnumerable (MovieController.searchMovies
          (okClient (.obj [("matched", .str "Inception"), ("recommendations", .arr [])]))
          incepSearchRequest).response.body)
        = (lookupField k [("matched", .str "Inception"), ("recommendations", .arr [])]).orElse
            (fun _ => if k = "success" then some (.bool true) else none)) :=
  success_envelope_spreads_payload
    (okClient (.obj [("matched", .str "Inception"), ("recommendations", .arr [])]))
    inceptionRequest incepSearchRequest "Inception" "Incep"
    [("matched", .str "Inception"), ("recommendations", .arr [])]
    rfl (by decide) rfl (by decide) (by decide) rfl rfl

end MovieRecommender
